import Mathlib

/-!
Shallow embedding of the example components of the analytics-dashboard
repository: the Counter, ThemeToggler and UserFetcher components
(src/src/App.jsx, src/src/components/Counter.jsx,
src/src/components/ThemeToggler.jsx) and the debounced SearchInput example
of the useEffect scenarios document (src/unnamed/part_000).

State hooks become explicit state records; effect bodies, timer callbacks
and fetch-promise callbacks become events consumed by a step function; a
run of a component is a fold of its step function over an event list.
The host runtime's documented behaviour is part of the embedding where the
components rely on it: a state update delivered to an unmounted component
is discarded, and a state update carrying a value equal to the current one
does not re-run effects that depend on it.
-/

namespace Counter

/-- Initial value of `useState(0)` in Counter. -/
def initialCount : Int := 0

/-- `setCount(prevCount => prevCount + 1)` — the Increment button. -/
def increment (prevCount : Int) : Int := prevCount + 1

/-- `setCount(prevCount => prevCount - 1)` — the Decrement button. -/
def decrement (prevCount : Int) : Int := prevCount - 1

end Counter

namespace ThemeToggler

/-- Initial value of `useState('light')` in ThemeToggler. -/
def initialTheme : String := "light"

/-- `setTheme(prevTheme => (prevTheme === 'light' ? 'dark' : 'light'))`. -/
def toggleTheme (prevTheme : String) : String :=
  if prevTheme = "light" then "dark" else "light"

/-- The theme state after `n` presses of the Toggle Theme button. -/
def themeAfter : Nat → String
  | 0 => initialTheme
  | n + 1 => toggleTheme (themeAfter n)

end ThemeToggler

namespace UserFetcher

/-- `setUserId(prevId => (prevId < 10 ? prevId + 1 : 1))` — Next User button. -/
def handleNextUser (prevId : Int) : Int := if prevId < 10 then prevId + 1 else 1

/-- `setUserId(prevId => (prevId > 1 ? prevId - 1 : 10))` — Previous User button. -/
def handlePrevUser (prevId : Int) : Int := if prevId > 1 then prevId - 1 else 10

/-- A press of one of the two navigation buttons of UserFetcher. -/
inductive Press
  | next
  | prev

/-- The userId update a button press performs. -/
def pressUser : Press → Int → Int
  | .next, i => handleNextUser i
  | .prev, i => handlePrevUser i

/-- The userId after a sequence of presses, from the initial `useState(1)`. -/
def userIdAfter (ps : List Press) : Int := ps.foldl (fun i p => pressUser p i) 1

/-- The hook state of UserFetcher (`userId`, `userData`, `loading`, `error`)
together with the bookkeeping a run needs: whether the component is still
mounted, the next fetch sequence number, and the in-flight fetches as
(sequence number, userId fetched) pairs. The fetched JSON payload and the
thrown error are both embedded as strings. -/
structure FetchState where
  userId : Int
  userData : Option String
  error : Option String
  loading : Bool
  mounted : Bool
  nextSeq : Nat
  pending : List (Nat × Int)

/-- The events a run of UserFetcher consumes: a button press (which re-runs
the effect and starts a new fetch), the completion of in-flight fetch number
`seq` with a success payload or a failure reason, and unmounting. -/
inductive FetchEvent
  | press (p : Press)
  | complete (seq : Nat) (outcome : Except String String)
  | unmount

/-- State after mount: the `useState` initial values, with the mount effect
already run (`setLoading(true)`, `setUserData(null)`, `setError(null)`,
`fetchUser()` started as attempt 0 for userId 1). -/
def FetchState.init : FetchState :=
  { userId := 1, userData := none, error := none, loading := true,
    mounted := true, nextSeq := 1, pending := [(0, 1)] }

/-- Whether fetch number `seq` is still in flight. -/
def hasPending (s : FetchState) (seq : Nat) : Bool :=
  s.pending.any (fun q => q.1 == seq)

/-- One step of UserFetcher.

* `press p`: `setUserId` runs; if the id actually changed, the effect
  re-runs — its cleanup only logs, cancelling nothing — so the state is
  cleared (`setLoading(true)`, `setUserData(null)`, `setError(null)`) and a
  new fetch starts with the next sequence number. A press on an unmounted
  component, or one that leaves userId unchanged, does nothing.
* `complete seq outcome`: the promise callbacks of `fetchUser` run. The code
  checks nothing about newer attempts: while the component is mounted, a
  success always does `setUserData(data)` and a failure always does
  `setError(e)`, each followed by `setLoading(false)` in `finally`. After
  unmount the callbacks still run but the host discards their state updates.
* `unmount`: the cleanup only logs; the in-flight fetches stay pending. -/
def fstep (s : FetchState) : FetchEvent → FetchState
  | .press p =>
      if s.mounted then
        let newId := pressUser p s.userId
        if newId = s.userId then s
        else
          { s with userId := newId, userData := none, error := none,
                   loading := true, nextSeq := s.nextSeq + 1,
                   pending := (s.nextSeq, newId) :: s.pending }
      else s
  | .complete seq outcome =>
      if hasPending s seq then
        let s' := { s with pending := s.pending.filter (fun q => q.1 != seq) }
        if s.mounted then
          match outcome with
          | .ok data => { s' with userData := some data, loading := false }
          | .error e => { s' with error := some e, loading := false }
        else s'
      else s
  | .unmount => { s with mounted := false }

/-- A run of UserFetcher from mount through a list of events. -/
def runF (evs : List FetchEvent) : FetchState :=
  evs.foldl fstep FetchState.init

end UserFetcher

namespace SearchInput

/-- The hook state of SearchInput (`searchTerm`, `debouncedSearchTerm`)
together with the pending debounce timer as (due time, captured term),
whether the component is mounted, and the log of searches the second effect
performed (`console.log('Performing search for:', ...)`). -/
structure SearchState where
  searchTerm : String
  debouncedSearchTerm : String
  timer : Option (Nat × String)
  mounted : Bool
  searches : List (Nat × String)

/-- The events a run of SearchInput consumes: an input edit at time `t`,
the clock reaching a pending timer's due time, and unmounting. -/
inductive SearchEvent
  | change (t : Nat) (v : String)
  | timerFire (t : Nat)
  | teardown

/-- State after mount at time 0 with debounce period `d`: both terms are the
`useState('')` initial value and the mount run of the first effect has set a
timer due at time `d` capturing the empty term. -/
def SearchState.init (d : Nat) : SearchState :=
  { searchTerm := "", debouncedSearchTerm := "", timer := some (d, ""),
    mounted := true, searches := [] }

/-- One step of SearchInput with debounce period `d` (500 in the source).

* `change t v`: `setSearchTerm(v)` runs. If `v` equals the current term the
  host bails out and the effect does not re-run; otherwise the effect's
  cleanup runs `clearTimeout` and the effect sets a new timer due at
  `t + d` capturing `v`.
* `timerFire t`: a pending timer whose due time is `t` fires:
  `setDebouncedSearchTerm` with the captured term. The second effect re-runs
  only when the debounced term actually changed, and its
  `if (debouncedSearchTerm)` guard skips the search for the empty string.
* `teardown`: the effect cleanup runs `clearTimeout` on the pending timer. -/
def sstep (d : Nat) (s : SearchState) : SearchEvent → SearchState
  | .change t v =>
      if s.mounted then
        if v = s.searchTerm then s
        else { s with searchTerm := v, timer := some (t + d, v) }
      else s
  | .timerFire t =>
      match s.timer with
      | some (ft, v) =>
          if ft = t then
            { s with timer := none, debouncedSearchTerm := v,
                     searches :=
                       if v ≠ s.debouncedSearchTerm ∧ v ≠ "" then
                         s.searches ++ [(t, v)]
                       else s.searches }
          else s
      | none => s
  | .teardown => { s with timer := none, mounted := false }

/-- Executes a time-ordered list of input edits, firing the pending timer
whenever its due time is reached before the next edit (this is the
wall-clock schedule of the browser event loop: a timer set at `t` with
delay `d` fires at `t + d` unless it is cleared first), and letting the
final pending timer fire at the end. -/
def runChanges (d : Nat) (s : SearchState) : List (Nat × String) → SearchState
  | [] =>
      match s.timer with
      | some (ft, _) => sstep d s (.timerFire ft)
      | none => s
  | (t, v) :: rest =>
      let s' :=
        match s.timer with
        | some (ft, _) => if ft < t then sstep d s (.timerFire ft) else s
        | none => s
      runChanges d (sstep d s' (.change t v)) rest

/-- A full run of SearchInput: mount at time 0, then the given edits. -/
def searchInput (d : Nat) (changes : List (Nat × String)) : SearchState :=
  runChanges d (SearchState.init d) changes

end SearchInput

/-- Each button press maps the range 1..10 into itself. -/
theorem UserFetcher.press_range (p : UserFetcher.Press) (i : Int)
    (h1 : 1 ≤ i) (h2 : i ≤ 10) :
    1 ≤ UserFetcher.pressUser p i ∧ UserFetcher.pressUser p i ≤ 10 := by
  cases p <;>
    simp only [UserFetcher.pressUser, UserFetcher.handleNextUser,
      UserFetcher.handlePrevUser] <;>
    split <;> omega

/-- Folding presses over a userId in 1..10 stays in 1..10. -/
theorem UserFetcher.foldl_press_range :
    ∀ (ps : List UserFetcher.Press) (i : Int), 1 ≤ i → i ≤ 10 →
      1 ≤ ps.foldl (fun j p => UserFetcher.pressUser p j) i
    ∧ ps.foldl (fun j p => UserFetcher.pressUser p j) i ≤ 10
  | [], _, h1, h2 => ⟨h1, h2⟩
  | p :: ps, i, h1, h2 => by
    have h := UserFetcher.press_range p i h1 h2
    simpa using UserFetcher.foldl_press_range ps (UserFetcher.pressUser p i) h.1 h.2

/-- Events do not touch userData, error or mounted once the component is
unmounted: the host discards state updates of an unmounted component. -/
theorem UserFetcher.fstep_unmounted (s : UserFetcher.FetchState)
    (e : UserFetcher.FetchEvent) (h : s.mounted = false) :
    (UserFetcher.fstep s e).userData = s.userData
  ∧ (UserFetcher.fstep s e).error = s.error
  ∧ (UserFetcher.fstep s e).mounted = false := by
  cases e with
  | press p => simp [UserFetcher.fstep, h]
  | complete seq o =>
    by_cases hp : UserFetcher.hasPending s seq = true <;>
      simp [UserFetcher.fstep, hp, h]
  | unmount => simp [UserFetcher.fstep, h]

/-- Whole runs after unmount leave userData and error untouched. -/
theorem UserFetcher.foldl_fstep_unmounted :
    ∀ (evs : List UserFetcher.FetchEvent) (s : UserFetcher.FetchState),
      s.mounted = false →
      (evs.foldl UserFetcher.fstep s).userData = s.userData
    ∧ (evs.foldl UserFetcher.fstep s).error = s.error
    ∧ (evs.foldl UserFetcher.fstep s).mounted = false
  | [], _, h => ⟨rfl, rfl, h⟩
  | e :: evs, s, h => by
    obtain ⟨h1, h2, h3⟩ := UserFetcher.fstep_unmounted s e h
    obtain ⟨g1, g2, g3⟩ :=
      UserFetcher.foldl_fstep_unmounted evs (UserFetcher.fstep s e) h3
    exact ⟨by rw [List.foldl_cons, g1, h1], by rw [List.foldl_cons, g2, h2],
      by rw [List.foldl_cons]; exact g3⟩

/-- A torn-down SearchInput state (no timer, unmounted) is a fixed point of
every event. -/
theorem SearchInput.sstep_fix (d : Nat) (s : SearchInput.SearchState)
    (e : SearchInput.SearchEvent) (ht : s.timer = none) (hm : s.mounted = false) :
    SearchInput.sstep d s e = s := by
  cases e with
  | change t v => simp [SearchInput.sstep, hm]
  | timerFire t => simp [SearchInput.sstep, ht]
  | teardown =>
    show { s with timer := none, mounted := false } = s
    rw [← ht, ← hm]

/-- A torn-down SearchInput state is a fixed point of every event list. -/
theorem SearchInput.foldl_sstep_fix (d : Nat) :
    ∀ (evs : List SearchInput.SearchEvent) (s : SearchInput.SearchState),
      s.timer = none → s.mounted = false →
      evs.foldl (SearchInput.sstep d) s = s
  | [], _, _, _ => rfl
  | e :: evs, s, ht, hm => by
    rw [List.foldl_cons, SearchInput.sstep_fix d s e ht hm]
    exact SearchInput.foldl_sstep_fix d evs s ht hm

/-- The theme state is always "light" or "dark". -/
theorem ThemeToggler.themeAfter_light_or_dark :
    ∀ n : Nat, ThemeToggler.themeAfter n = "light"
      ∨ ThemeToggler.themeAfter n = "dark"
  | 0 => Or.inl rfl
  | n + 1 => by
    rcases ThemeToggler.themeAfter_light_or_dark n with h | h
    · exact Or.inr (by show ThemeToggler.toggleTheme (ThemeToggler.themeAfter n) = "dark"; rw [h]; decide)
    · exact Or.inl (by show ThemeToggler.toggleTheme (ThemeToggler.themeAfter n) = "light"; rw [h]; decide)

/-- C1: the claim says that when attempts A and B both succeed and B started
after A's creation, the stabilized output ends at B's result regardless of
completion order. In the code the fetch callbacks apply unconditionally:
when the older attempt 0 completes after the newer attempt 1, its result
overwrites attempt 1's, so the output is not B's result. -/
theorem fetcher_stale_overwrite_cex :
    (UserFetcher.runF [.press .next, .complete 1 (.ok "user2"),
        .complete 0 (.ok "user1")]).userData = some "user1"
  ∧ (UserFetcher.runF [.press .next, .complete 1 (.ok "user2"),
        .complete 0 (.ok "user1")]).userData ≠ some "user2" := by decide

/-- C1 (amended): while the component is mounted, every successful
completion of an in-flight fetch is applied with no sequence check, so the
stabilized output after both attempts complete equals the result of
whichever resolver completed last: B's result when B completes last, A's
result when A completes last. -/
theorem fetcher_last_completion_wins :
    (∀ (s : UserFetcher.FetchState) (seq : Nat) (data : String),
        s.mounted = true → UserFetcher.hasPending s seq = true →
        (UserFetcher.fstep s (.complete seq (.ok data))).userData = some data)
  ∧ (UserFetcher.runF [.press .next, .complete 0 (.ok "user1"),
        .complete 1 (.ok "user2")]).userData = some "user2"
  ∧ (UserFetcher.runF [.press .next, .complete 1 (.ok "user2"),
        .complete 0 (.ok "user1")]).userData = some "user1" := by
  refine ⟨?_, by decide, by decide⟩
  intro s seq data hm hp
  simp [UserFetcher.fstep, hp, hm]

/-- C2: the claim says a completion of an attempt older than the most
recently started one is discarded unconditionally, never applied and never
reported as an error. In the code the stale attempt 0, failing after the
newer attempt 1 already applied its result, is still reported through the
error state. -/
theorem fetcher_stale_error_reported_cex :
    (UserFetcher.runF [.press .next, .complete 1 (.ok "u2"),
        .complete 0 (.error "boom")]).error = some "boom"
  ∧ (UserFetcher.runF [.press .next, .complete 1 (.ok "u2"),
        .complete 0 (.error "boom")]).error ≠ none := by decide

/-- C2 (amended): the code performs no staleness check: any in-flight
attempt completing while the component is mounted is applied (success sets
userData) or reported (failure sets error), and ends the loading state,
regardless of how many newer attempts have started since. -/
theorem fetcher_stale_completion_applied :
    (∀ (s : UserFetcher.FetchState) (seq : Nat) (e : String),
        s.mounted = true → UserFetcher.hasPending s seq = true →
        (UserFetcher.fstep s (.complete seq (.error e))).error = some e
      ∧ (UserFetcher.fstep s (.complete seq (.error e))).loading = false)
  ∧ (∀ (s : UserFetcher.FetchState) (seq : Nat) (data : String),
        s.mounted = true → UserFetcher.hasPending s seq = true →
        (UserFetcher.fstep s (.complete seq (.ok data))).loading = false)
  ∧ (UserFetcher.runF [.press .next, .complete 1 (.ok "u2"),
        .complete 0 (.error "late-fail")]).error = some "late-fail"
  ∧ (UserFetcher.runF [.press .next, .complete 1 (.ok "u2"),
        .complete 0 (.error "late-fail")]).userData = some "u2" := by
  refine ⟨?_, ?_, by decide, by decide⟩
  · intro s seq e hm hp
    constructor <;> simp [UserFetcher.fstep, hp, hm]
  · intro s seq data hm hp
    simp [UserFetcher.fstep, hp, hm]

/-- C4: the claim says a failure of the still-latest attempt leaves the
prior stabilized output value untouched. In the code the effect re-run that
starts the newer attempt already cleared the output (`setUserData(null)`),
so after the failure the output is none, not the prior value "bob". -/
theorem fetcher_prior_value_cleared_cex :
    (UserFetcher.runF [.complete 0 (.ok "bob"), .press .next,
        .complete 1 (.error "http-404")]).userData = none
  ∧ (UserFetcher.runF [.complete 0 (.ok "bob"), .press .next,
        .complete 1 (.error "http-404")]).error = some "http-404"
  ∧ (UserFetcher.runF [.complete 0 (.ok "bob"), .press .next,
        .complete 1 (.error "http-404")]).userData ≠ some "bob" := by decide

/-- C4 (amended): a resolver failure while the component is mounted is
surfaced through the distinct error state and the failure step itself does
not modify userData; but the prior stabilized output value is not retained,
because starting a new attempt already cleared userData and error to none,
and failures of superseded attempts are surfaced the same way (the failure
conjunct quantifies over every in-flight attempt, not only the latest). -/
theorem fetcher_failure_surfaced_prior_cleared :
    (∀ (s : UserFetcher.FetchState) (seq : Nat) (e : String),
        s.mounted = true → UserFetcher.hasPending s seq = true →
        (UserFetcher.fstep s (.complete seq (.error e))).error = some e
      ∧ (UserFetcher.fstep s (.complete seq (.error e))).userData = s.userData)
  ∧ (∀ (s : UserFetcher.FetchState) (p : UserFetcher.Press),
        s.mounted = true → UserFetcher.pressUser p s.userId ≠ s.userId →
        (UserFetcher.fstep s (.press p)).userData = none
      ∧ (UserFetcher.fstep s (.press p)).error = none
      ∧ (UserFetcher.fstep s (.press p)).loading = true)
  ∧ (UserFetcher.runF [.complete 0 (.ok "alice"), .press .next,
        .complete 1 (.error "http-500")]).userData = none
  ∧ (UserFetcher.runF [.complete 0 (.ok "alice"), .press .next,
        .complete 1 (.error "http-500")]).error = some "http-500" := by
  refine ⟨?_, ?_, by decide, by decide⟩
  · intro s seq e hm hp
    constructor <;> simp [UserFetcher.fstep, hp, hm]
  · intro s p hm hne
    refine ⟨?_, ?_, ?_⟩ <;> simp [UserFetcher.fstep, hm, hne]

/-- C5: after unmounting, an in-flight fetch completing — successfully or
not — changes neither the stabilized output nor the surfaced error: the
host discards state updates of an unmounted component, so no result of a
resolution in flight at teardown is ever applied or surfaced. -/
theorem fetcher_teardown_no_apply :
    (∀ (s : UserFetcher.FetchState) (evs : List UserFetcher.FetchEvent),
        (List.foldl UserFetcher.fstep (UserFetcher.fstep s .unmount) evs).userData
          = s.userData
      ∧ (List.foldl UserFetcher.fstep (UserFetcher.fstep s .unmount) evs).error
          = s.error)
  ∧ (UserFetcher.runF [.unmount, .complete 0 (.ok "res")]).userData = none
  ∧ (UserFetcher.runF [.unmount, .complete 0 (.error "late")]).error = none := by
  refine ⟨?_, by decide, by decide⟩
  intro s evs
  have h :=
    UserFetcher.foldl_fstep_unmounted evs (UserFetcher.fstep s .unmount) rfl
  exact ⟨h.1, h.2.1⟩

/-- C3: the claim's example says that with a 500 ms quiet period and input
changes at t=0 ("a"), t=100 ("ab") and t=700 ("abc") the resolver is called
exactly once, with "abc". In the code the input "ab" is itself quiet from
t=100 to t=700, longer than 500 ms, so its timer fires at t=600 and the
search runs twice: with "ab" at t=600 and with "abc" at t=1200. -/
theorem searchInput_example_two_calls_cex :
    (SearchInput.searchInput 500 [(0, "a"), (100, "ab"), (700, "abc")]).searches
      = [(600, "ab"), (1200, "abc")]
  ∧ (SearchInput.searchInput 500 [(0, "a"), (100, "ab"), (700, "abc")]).searches
      ≠ [(1200, "abc")] := by decide

/-- C3 (amended): every input change replaces the pending quiet-period
timer with one due a full quiet period later; a change arriving at or
before the pending timer's due time prevents that timer from ever firing;
only a timer firing extends the search log (changes and teardown never do);
and in the claim's example the resolver is called twice, with "ab" at t=600
and with "abc" at t=1200, because "ab" also reaches a full quiet period. -/
theorem searchInput_debounce_behavior :
    (∀ (d : Nat) (s : SearchInput.SearchState) (t : Nat) (v : String),
        s.mounted = true → v ≠ s.searchTerm →
        (SearchInput.sstep d s (.change t v)).timer = some (t + d, v))
  ∧ (∀ (d : Nat) (s : SearchInput.SearchState) (t : Nat) (v : String),
        (SearchInput.sstep d s (.change t v)).searches = s.searches
      ∧ (SearchInput.sstep d s .teardown).searches = s.searches)
  ∧ (∀ (d : Nat) (s : SearchInput.SearchState) (t' : Nat) (v' : String)
        (cs : List (Nat × String)) (ft : Nat) (vp : String),
        s.timer = some (ft, vp) → t' ≤ ft →
        SearchInput.runChanges d s ((t', v') :: cs)
          = SearchInput.runChanges d (SearchInput.sstep d s (.change t' v')) cs)
  ∧ (SearchInput.searchInput 500 [(0, "a"), (100, "ab"), (700, "abc")]).searches
      = [(600, "ab"), (1200, "abc")] := by
  refine ⟨?_, ?_, ?_, by decide⟩
  · intro d s t v hm hv
    simp [SearchInput.sstep, hm, hv]
  · intro d s t v
    constructor
    · show (SearchInput.sstep d s (.change t v)).searches = s.searches
      simp only [SearchInput.sstep]
      split
      · split <;> rfl
      · rfl
    · rfl
  · intro d s t' v' cs ft vp h1 h2
    simp only [SearchInput.runChanges, h1]
    rw [if_neg (by omega : ¬ ft < t')]

/-- C6: teardown clears the pending quiet-period timer and unmounts, so no
resolver invocation can occur afterward; teardown is idempotent, and the
torn-down state is a fixed point of every further event, so all timers and
callbacks are no-ops from then on (in this component the search itself is
synchronous, so the timer is the only outstanding callback). -/
theorem searchInput_teardown_cancels :
    (∀ (d : Nat) (s : SearchInput.SearchState),
        (SearchInput.sstep d s .teardown).timer = none
      ∧ (SearchInput.sstep d s .teardown).mounted = false
      ∧ (SearchInput.sstep d s .teardown).searches = s.searches
      ∧ SearchInput.sstep d (SearchInput.sstep d s .teardown) .teardown
          = SearchInput.sstep d s .teardown)
  ∧ (∀ (d : Nat) (s : SearchInput.SearchState)
        (evs : List SearchInput.SearchEvent),
        List.foldl (SearchInput.sstep d) (SearchInput.sstep d s .teardown) evs
          = SearchInput.sstep d s .teardown) := by
  constructor
  · intro d s
    exact ⟨rfl, rfl, rfl, SearchInput.sstep_fix d _ .teardown rfl rfl⟩
  · intro d s evs
    exact SearchInput.foldl_sstep_fix d evs _ rfl rfl

/-- C7: the claim says that with a zero quiet period the component resolves
on every input change and that equal-valued results are applied as two
independent applications, value equality never governing application. In
the code the search effect is keyed on the debounced term and guarded by
its truthiness: a change to the empty string triggers no search even with
quiet period 0, and a second attempt resolving to the value already held is
not searched again. -/
theorem searchInput_dedup_cex :
    (SearchInput.searchInput 0 [(0, "a"), (1, "")]).searches = [(0, "a")]
  ∧ (SearchInput.searchInput 0 [(0, "a"), (1, "")]).searches.length ≠ 2
  ∧ (SearchInput.searchInput 500 [(0, "a"), (1000, "ab"), (1100, "a")]).searches
      = [(500, "a")]
  ∧ (SearchInput.searchInput 500 [(0, "a"), (1000, "ab"), (1100, "a")]).searches.length
      ≠ 2 := by decide

/-- C7 (amended): with quiet period 0 every input change installs a timer
due immediately, and a firing timer performs the search exactly when the
captured value differs from the current debounced term and is non-empty —
so value equality and emptiness, not only recency, govern whether the
search runs: equal-valued attempts are de-duplicated and empty inputs are
never searched, while distinct non-empty inputs are each searched. -/
theorem searchInput_zero_quiet_dedup :
    (∀ (s : SearchInput.SearchState) (t : Nat) (v : String),
        s.mounted = true → v ≠ s.searchTerm →
        (SearchInput.sstep 0 s (.change t v)).timer = some (t, v))
  ∧ (∀ (d : Nat) (s : SearchInput.SearchState) (t : Nat) (v : String),
        s.timer = some (t, v) →
        ((v = s.debouncedSearchTerm ∨ v = "") →
            (SearchInput.sstep d s (.timerFire t)).searches = s.searches)
      ∧ (v ≠ s.debouncedSearchTerm → v ≠ "" →
            (SearchInput.sstep d s (.timerFire t)).searches
              = s.searches ++ [(t, v)]))
  ∧ (SearchInput.searchInput 0 [(0, "a"), (1, "ab")]).searches
      = [(0, "a"), (1, "ab")]
  ∧ (SearchInput.searchInput 0 [(0, "a"), (1, "")]).searches = [(0, "a")]
  ∧ (SearchInput.searchInput 500 [(0, "a"), (1000, "ab"), (1100, "a")]).searches
      = [(500, "a")] := by
  refine ⟨?_, ?_, by decide, by decide, by decide⟩
  · intro s t v hm hv
    simp [SearchInput.sstep, hm, hv]
  · intro d s t v h1
    constructor
    · intro hcase
      rcases hcase with h | h <;> simp [SearchInput.sstep, h1, h]
    · intro hne hemp
      simp [SearchInput.sstep, h1, hne, hemp]

/-- C8: from the initial userId 1, every sequence of Next User and Previous
User presses keeps userId between 1 and 10; on that range handleNextUser
maps 10 to 1 and otherwise adds 1, handlePrevUser maps 1 to 10 and
otherwise subtracts 1, and the two are mutual inverses. -/
theorem fetcher_userId_range_inverse :
    (∀ ps : List UserFetcher.Press,
        1 ≤ UserFetcher.userIdAfter ps ∧ UserFetcher.userIdAfter ps ≤ 10)
  ∧ (∀ i : Int, 1 ≤ i → i ≤ 10 →
        UserFetcher.handleNextUser i = (if i = 10 then 1 else i + 1)
      ∧ UserFetcher.handlePrevUser i = (if i = 1 then 10 else i - 1)
      ∧ UserFetcher.handlePrevUser (UserFetcher.handleNextUser i) = i
      ∧ UserFetcher.handleNextUser (UserFetcher.handlePrevUser i) = i) := by
  constructor
  · intro ps
    exact UserFetcher.foldl_press_range ps 1 (by omega) (by omega)
  · intro i h1 h2
    refine ⟨?_, ?_, ?_, ?_⟩ <;>
      simp only [UserFetcher.handleNextUser, UserFetcher.handlePrevUser] <;>
      split_ifs <;> omega

/-- C9: the theme starts at "light", is always either "light" or "dark",
and toggling twice returns every reachable theme to itself. -/
theorem themeToggler_involution :
    ThemeToggler.initialTheme = "light"
  ∧ (∀ n : Nat, ThemeToggler.themeAfter n = "light"
      ∨ ThemeToggler.themeAfter n = "dark")
  ∧ (∀ n : Nat,
      ThemeToggler.toggleTheme (ThemeToggler.toggleTheme (ThemeToggler.themeAfter n))
        = ThemeToggler.themeAfter n) := by
  refine ⟨rfl, ThemeToggler.themeAfter_light_or_dark, ?_⟩
  intro n
  rcases ThemeToggler.themeAfter_light_or_dark n with h | h <;> rw [h] <;> decide

/-- C10: increment and decrement are mutual inverses on every count, the
count starts at 0, and decrementing 0 yields -1 (the count is an unbounded
integer, with no lower limit enforced). -/
theorem counter_inc_dec_inverse :
    (∀ count : Int,
        Counter.decrement (Counter.increment count) = count
      ∧ Counter.increment (Counter.decrement count) = count)
  ∧ Counter.decrement 0 = -1
  ∧ Counter.initialCount = 0 := by
  refine ⟨?_, by decide, rfl⟩
  intro count
  constructor <;> simp [Counter.increment, Counter.decrement]
